import Mathlib

/-!
# Slide Surgeon — verification of the orchestration and compositing logic

Shallow embedding of the core logic of the repository (a browser single-page
application in `index.tsx` plus the demo fixture table in `src/demo-data.ts`).

External collaborators (the Content Extractor and Visual Generator services,
the canvas drawing surface, the wall clock) are modelled as explicit
environment records supplied to each flow; the flows themselves are translated
from the source as pure functions on a `Session` state mirroring the React
component state of `App`.
-/

namespace SlideSurgeon

/-! ## JSON values

The structured slide-content descriptions are dynamically-typed JSON values
in the source (`structuredJson : any`); we embed them as a small JSON tree.
-/

/-- A JSON value, as produced by `JSON.parse` / stored in `DEMO_DATA`. -/
inductive Json where
  | null : Json
  | bool : Bool → Json
  | num : Int → Json
  | str : String → Json
  | arr : List Json → Json
  | obj : List (String × Json) → Json

/-- Field lookup on a JSON value, as the property access `j.error` in JS:
`undefined` (here `none`) on non-objects and absent keys. -/
def jsonGet (j : Json) (key : String) : Option Json :=
  match j with
  | .obj fields => (fields.find? (fun f => f.1 == key)).map (fun f => f.2)
  | _ => none

/-- JavaScript truthiness of a JSON value: `null`, `false`, `0` and `""` are
falsy; arrays and objects are always truthy. -/
def jsonTruthy (j : Json) : Bool :=
  match j with
  | .null => false
  | .bool b => b
  | .num n => n != 0
  | .str s => s != ""
  | .arr _ => true
  | .obj _ => true

/-- JavaScript truthiness of a possibly-`undefined` value (`none` is falsy). -/
def jsTruthy (j : Option Json) : Bool :=
  match j with
  | none => false
  | some v => jsonTruthy v

/-! ## The demo fixture table (`src/demo-data.ts`) -/

/-- Embeds the entry of `DEMO_DATA` at key `roadmap.png` from `src/demo-data.ts`. -/
def roadmapContent : Json :=
  .obj [("tasks", .arr
    [ .obj [("taskName", .str "Launch Beta Program"), ("owner", .str "Product Team"),
            ("timeline", .str "Q1 2024"), ("status", .str "Completed")],
      .obj [("taskName", .str "User Feedback Analysis"), ("owner", .str "UX Research"),
            ("timeline", .str "Q2 2024"), ("status", .str "In Progress")],
      .obj [("taskName", .str "V2 Feature Planning"), ("owner", .str "Product Team"),
            ("timeline", .str "Q3 2024"), ("status", .str "Not Started")],
      .obj [("taskName", .str "Public Launch Campaign"), ("owner", .str "Marketing"),
            ("timeline", .str "Q4 2024"), ("status", .str "Not Started")] ])]

/-- Embeds the entry of `DEMO_DATA` at key `survey.png` from `src/demo-data.ts`. -/
def surveyContent : Json :=
  .obj [("questions", .arr
    [ .obj [("questionText", .str "How satisfied are you with our product?"),
            ("data", .arr
              [ .obj [("label", .str "Very Satisfied"), ("value", .num 45)],
                .obj [("label", .str "Satisfied"), ("value", .num 30)],
                .obj [("label", .str "Neutral"), ("value", .num 15)],
                .obj [("label", .str "Unsatisfied"), ("value", .num 10)] ])],
      .obj [("questionText", .str "Which feature is most important to you?"),
            ("data", .arr
              [ .obj [("label", .str "Reporting"), ("value", .num 55)],
                .obj [("label", .str "Integrations"), ("value", .num 25)],
                .obj [("label", .str "UI/UX"), ("value", .num 15)],
                .obj [("label", .str "Support"), ("value", .num 5)] ])] ])]

/-- Embeds the entry of `DEMO_DATA` at key `flowchart.png` from `src/demo-data.ts`.  The snapshot of
`src/demo-data.ts` provided with the repository is cut off inside the `edges`
list (after the `notify_approved → end` edge); we carry the edges visible in
the snapshot.  None of the verified properties depends on the exact value of
this fixture, only on the lookup mechanism. -/
def flowchartContent : Json :=
  .obj [("nodes", .arr
    [ .obj [("id", .str "start"), ("label", .str "User Submits Request")],
      .obj [("id", .str "approval"), ("label", .str "Manager Approval?")],
      .obj [("id", .str "process"), ("label", .str "Process Request")],
      .obj [("id", .str "notify_approved"), ("label", .str "Notify User (Approved)")],
      .obj [("id", .str "notify_denied"), ("label", .str "Notify User (Denied)")],
      .obj [("id", .str "end"), ("label", .str "End")] ]),
   ("edges", .arr
    [ .obj [("source", .str "start"), ("target", .str "approval")],
      .obj [("source", .str "approval"), ("target", .str "process")],
      .obj [("source", .str "approval"), ("target", .str "notify_denied")],
      .obj [("source", .str "process"), ("target", .str "notify_approved")],
      .obj [("source", .str "notify_approved"), ("target", .str "end")] ])]

/-- Embeds `DEMO_DATA` from `src/demo-data.ts`: the static mapping from known demo
file names to pre-extracted structured content. -/
def DEMO_DATA : List (String × Json) :=
  [ ("roadmap.png", roadmapContent),
    ("survey.png", surveyContent),
    ("flowchart.png", flowchartContent) ]

/-- Embeds `Object.keys(DEMO_DATA).includes(name)` resolved through a lookup:
the fixture value for `name`, when `name` is a key of `DEMO_DATA`. -/
def lookupDemo (name : String) : Option Json :=
  (DEMO_DATA.find? (fun e => e.1 == name)).map (fun e => e.2)

/-! ## Image Compositor (`processFinalImage` in `index.tsx`)

`processFinalImage` draws onto an HTML canvas.  We embed the two pieces of
arithmetic it performs: the target canvas dimensions and the fit/centering
geometry.  JavaScript numbers are modelled as exact rationals; for the widths
and ratios involved the double-precision arithmetic of the source is exact
except for the final ratio, and the claims proved below are stated so that
they are insensitive to that rounding (exact equalities on the rational
model). -/

/-- Embeds `const targetHeight = (targetWidth / 16) * 9` (line 39 of `index.tsx`),
as an exact rational. -/
def targetHeightRat (targetWidth : ℕ) : ℚ :=
  ((targetWidth : ℚ) / 16) * 9

/-- Embeds `canvas.height = targetHeight`: the canvas `height` attribute is a WebIDL
`unsigned long`, so the assignment truncates the fractional part toward zero;
for the nonnegative heights produced here this is the floor. -/
def canvasHeight (targetWidth : ℕ) : ℕ :=
  ⌊targetHeightRat targetWidth⌋₊

/-- The output canvas dimensions of `processFinalImage` for a given
`targetWidth` (lines 39–43 of `index.tsx`). -/
def processCanvasDims (targetWidth : ℕ) : ℕ × ℕ :=
  (targetWidth, canvasHeight targetWidth)

/-- The fit-and-center geometry computed in the `img.onload` callback of
`processFinalImage` (lines 56–69 of `index.tsx`). -/
structure Geometry where
  ratio : ℚ
  shiftX : ℚ
  shiftY : ℚ
  drawW : ℚ
  drawH : ℚ

/-- Lines 57–62 of `index.tsx`: `hRatio = canvas.width / img.width`,
`vRatio = canvas.height / img.height`, `ratio = Math.min(hRatio, vRatio)`,
`centerShift_x = (canvas.width - img.width * ratio) / 2` (and `_y`), and the
drawn size `img.width * ratio` × `img.height * ratio`. -/
def composeGeometry (canvasW canvasH imgW imgH : ℕ) : Geometry :=
  let hRatio : ℚ := (canvasW : ℚ) / (imgW : ℚ)
  let vRatio : ℚ := (canvasH : ℚ) / (imgH : ℚ)
  let ratio : ℚ := min hRatio vRatio
  { ratio := ratio
    shiftX := ((canvasW : ℚ) - (imgW : ℚ) * ratio) / 2
    shiftY := ((canvasH : ℚ) - (imgH : ℚ) * ratio) / 2
    drawW := (imgW : ℚ) * ratio
    drawH := (imgH : ℚ) * ratio }

/-! ## Data model of the orchestrator (`index.tsx`) -/

/-- The `truthLockStatus` field of `Variant` (line 19 of `index.tsx`):
a union of the tags `verifying`, `verified` and `modified`. -/
inductive TruthLockStatus where
  | verifying : TruthLockStatus
  | verified : TruthLockStatus
  | modified : TruthLockStatus
deriving DecidableEq, Repr

/-- The `Variant` interface (lines 15–20 of `index.tsx`). -/
structure Variant where
  id : String
  sourceGraphicUrl : String
  displayImageUrl : String
  truthLockStatus : TruthLockStatus
deriving DecidableEq, Repr

/-- The `StylePreset` union type (line 22 of `index.tsx`). -/
inductive StylePreset where
  | Executive : StylePreset
  | Workshop : StylePreset
  | Investor : StylePreset
deriving DecidableEq, Repr

/-- An uploaded `File`: its `name` drives the demo-fixture lookup; the
contents are opaque bytes. -/
structure UploadedFile where
  name : String
  bytes : String
deriving DecidableEq, Repr

/-- The React component state of `App` (lines 117–124 of `index.tsx`). -/
structure Session where
  originalImage : Option UploadedFile
  stylePreset : StylePreset
  variants : List Variant
  isLoading : Bool
  isTweaking : Bool
  tweakRequest : String
  error : Option String
  compareOn : Bool
deriving DecidableEq, Repr

/-- The initial component state (the `useState` initialisers,
lines 117–124 of `index.tsx`). -/
def initialSession : Session :=
  { originalImage := none
    stylePreset := .Workshop
    variants := []
    isLoading := false
    isTweaking := false
    tweakRequest := ""
    error := none
    compareOn := false }

/-! ## The Visual Generator response shape -/

/-- The `inlineData` payload of a response part: binary image data with a
MIME type. -/
structure InlineData where
  mimeType : String
  data : String
deriving DecidableEq, Repr

/-- One part of a generator response: it may carry `text`, `inlineData`,
both, or neither (other part kinds of the remote API carry neither). -/
structure Part where
  text : Option String
  inlineData : Option InlineData
deriving DecidableEq, Repr

/-- A generator response, reduced to the optional chain
`response.candidates?.[0]?.content?.parts` the orchestrator reads:
`none` models any break in that chain (no candidates, no content, …). -/
structure GenResponse where
  parts : Option (List Part)
deriving DecidableEq, Repr

/-- JS truthiness of `part.text`: present and a nonempty string. -/
def textTruthy (t : Option String) : Bool :=
  match t with
  | none => false
  | some s => s != ""

/-- Embeds `parts.find((part) => part.text)` followed by reading `.text` of the
found part (lines 277 and 284 of `index.tsx`). -/
def findTextPart (parts : List Part) : Option String :=
  (parts.find? (fun p => textTruthy p.text)).bind (fun p => p.text)

/-- Embeds `parts.find((part) => part.inlineData)` followed by reading
`.inlineData` of the found part (lines 278 and 287 of `index.tsx`). -/
def findImageData (parts : List Part) : Option InlineData :=
  (parts.find? (fun p => p.inlineData.isSome)).bind (fun p => p.inlineData)

/-- The parts list of a response, with a missing chain read as `[]`
(both required parts are then absent). -/
def respParts (resp : GenResponse) : List Part :=
  resp.parts.getD []

/-- Embeds `!parts || parts.length < 2` (line 273 of `index.tsx`). -/
def shortParts (resp : GenResponse) : Bool :=
  match resp.parts with
  | none => true
  | some parts => parts.length < 2

/-- Embeds `data:${mimeType};base64,${data}` (lines 288 and 360 of `index.tsx`). -/
def dataUrlOf (d : InlineData) : String :=
  "data:" ++ d.mimeType ++ ";base64," ++ d.data

/-! ## Error messages (string literals of `index.tsx`) -/

/-- Line 226. -/
def msgNoImageUpload : String := "Please upload an image first."

/-- Line 246. -/
def msgOcrFailed : String :=
  "Smart OCR failed to extract structured content from the slide. Please try a different image."

/-- Line 267 (the rejection carried by the timeout promise). -/
def msgTimeout : String :=
  "Generation timed out. The request took too long, please try again."

/-- Line 274 (the response or its parts list is missing, or it has fewer
than two parts). -/
def msgNotBothParts : String :=
  "Sorry, the model didn\x27t return both a title and an image. Please try again."

/-- Line 281 (the text part or the image part was not found). -/
def msgMissingEither : String :=
  "The model response was missing either the text or image part."

/-- Line 302 (catch-all fallback when the thrown error has no message). -/
def msgGenericGenerate : String :=
  "An error occurred while generating variants. Please check the console."

/-- Line 315. -/
def msgVariantNotFound : String := "Could not find the variant to tweak."

/-- Line 381 (the single message of the tweak-flow catch block). -/
def msgTweakFailed : String :=
  "Sorry, the tweak could not be applied. Please try again."

/-! ## Environments: the external collaborators of one flow run -/

/-- The environment of one `handleGenerateVariants` run: what the external
world (Content Extractor, Visual Generator, wall clock, canvas, RNG) would
answer if consulted. -/
structure GenEnv where
  /-- What `runOcrOnImage` returns: the JSON parsed from the Content
  Extractor response, or — via its internal catch block — an object bearing
  an `error` field.  Either way the caller inspects `structuredJson.error`. -/
  ocrResult : Json
  /-- The eventual settlement of the generation promise: the response on
  fulfilment, the thrown message (`e.message`) on rejection. -/
  generatorResult : Except String GenResponse
  /-- Whether the 60-second timeout promise settles before the generation
  promise in `Promise.race` (line 270 of `index.tsx`). -/
  timeoutWins : Bool
  /-- Embeds `processFinalImage` as experienced by this run: data URL in, data URL
  out, or a rejection (decode/context failure). -/
  composite : String → Except String String
  /-- Embeds `crypto.randomUUID()` (line 292 of `index.tsx`). -/
  newId : String

/-- Embeds `const GENERATION_TIMEOUT_MS = 60000` (line 257 of `index.tsx`). -/
def GENERATION_TIMEOUT_MS : ℕ := 60000

/-- Lines 236–248 of `index.tsx`: fixture lookup, else live OCR with the
`structuredJson.error` truthiness check.  The boolean records whether the
Content Extractor (`runOcrOnImage`) was called. -/
def extractStep (env : GenEnv) (name : String) : Bool × Except String Json :=
  match lookupDemo name with
  | some fixture => (false, .ok fixture)
  | none =>
      (true,
        if jsTruthy (jsonGet env.ocrResult "error") then .error msgOcrFailed
        else .ok env.ocrResult)

/-- Embeds `await Promise.race([generationPromise, timeoutPromise])`
(lines 257–270 of `index.tsx`): the timeout rejection when the timeout
promise settles first, otherwise the generation promise settlement. -/
def raceResult (env : GenEnv) : Except String GenResponse :=
  if env.timeoutWins then .error msgTimeout else env.generatorResult

/-- Lines 272–282 of `index.tsx`: the response-shape check.  First the
`!parts || parts.length < 2` guard (one message), then the two `find`
calls (a second message when either find fails). -/
def shapeCheck (resp : GenResponse) : Except String (String × InlineData) :=
  match resp.parts with
  | none => .error msgNotBothParts
  | some parts =>
      if parts.length < 2 then .error msgNotBothParts
      else
        match findTextPart parts, findImageData parts with
        | some title, some idata => .ok (title, idata)
        | some _, none => .error msgMissingEither
        | none, some _ => .error msgMissingEither
        | none, none => .error msgMissingEither

/-- The body of the `try` block of `handleGenerateVariants`
(lines 235–298 of `index.tsx`), as the Variant it constructs or the message
of the error it throws. -/
def generationAttempt (env : GenEnv) (name : String) : Except String Variant :=
  match (extractStep env name).2 with
  | .error m => .error m
  | .ok _structuredJson =>
      match raceResult env with
      | .error m => .error m
      | .ok resp =>
          match shapeCheck resp with
          | .error m => .error m
          | .ok (_title, idata) =>
              match env.composite (dataUrlOf idata) with
              | .error m => .error m
              | .ok disp =>
                  .ok { id := env.newId
                        sourceGraphicUrl := dataUrlOf idata
                        displayImageUrl := disp
                        truthLockStatus := .verified }

/-- Instrumentation of one generation run: whether the Content Extractor was
called, and the structured description submitted to the Visual Generator
(`none` when the flow failed before the generator call on line 258). -/
structure GenTrace where
  ocrCalled : Bool
  submittedJson : Option Json

/-- Embeds `handleGenerateVariants` (lines 224–306 of `index.tsx`) with its trace.
The early return on a missing source image (lines 225–228) changes only the
error message; otherwise the state is reset (lines 230–233), the `try` body
runs, and `catch`/`finally` set the error message (with the `e.message ||
default` fallback, where an empty message is falsy) and clear the loading
flag. -/
def handleGenerateVariantsT (env : GenEnv) (s : Session) : Session × GenTrace :=
  match s.originalImage with
  | none =>
      ({ s with error := some msgNoImageUpload },
       { ocrCalled := false, submittedJson := none })
  | some img =>
      let s1 : Session :=
        { s with isLoading := true, compareOn := false, error := none,
                 variants := [] }
      let ext := extractStep env img.name
      let trace : GenTrace :=
        { ocrCalled := ext.1
          submittedJson := match ext.2 with | .ok j => some j | .error _ => none }
      match generationAttempt env img.name with
      | .ok v => ({ s1 with variants := [v], isLoading := false }, trace)
      | .error m =>
          ({ s1 with
              error := some (if m == "" then msgGenericGenerate else m),
              isLoading := false }, trace)

/-- The state transformer of `handleGenerateVariants`. -/
def handleGenerateVariants (env : GenEnv) (s : Session) : Session :=
  (handleGenerateVariantsT env s).1

/-! ## The edit ("tweak") flow (`handleApplyTweak` in `index.tsx`) -/

/-- Splits a character list at the last occurrence of `sep` that leaves a
nonempty remainder, returning the parts before and after that occurrence.
Preferring the rightmost such occurrence mirrors the greedy first group of
the regex `^data:(.+);base64,(.+)$` on line 323 of `index.tsx` (on the
line-terminator–free strings this program constructs, where `.` matches
every character). -/
def lastValidSplit (sep : List Char) : List Char → Option (List Char × List Char)
  | [] => none
  | c :: cs =>
      match lastValidSplit sep cs with
      | some (pre, post) => some (c :: pre, post)
      | none =>
          if sep.isPrefixOf (c :: cs) && ((c :: cs).drop sep.length).length > 0 then
            some ([], (c :: cs).drop sep.length)
          else none

/-- Embeds `variantToTweak.sourceGraphicUrl.match(/^data:(.+);base64,(.+)$/)`
(line 323 of `index.tsx`): the captured MIME type and base64 payload, or
`none` when the pattern does not match (both groups must be nonempty). -/
def parseDataUrl (s : String) : Option (String × String) :=
  let cs := s.toList
  if ("data:".toList).isPrefixOf cs then
    match lastValidSplit (";base64,".toList) (cs.drop 5) with
    | some (pre, post) =>
        if pre.length > 0 then some (⟨pre⟩, ⟨post⟩) else none
    | none => none
  else none

/-- The environment of one `handleApplyTweak` run. -/
structure TweakEnv where
  /-- The settlement of the tweak `generateContent` call (line 346):
  the response on fulfilment, the thrown message on rejection. -/
  generatorResult : Except String GenResponse
  /-- Embeds `processFinalImage` as experienced by this run. -/
  composite : String → Except String String

/-- The body of the `try` block of `handleApplyTweak` applied to the found
variant (lines 320–377 of `index.tsx`): the new source and display URLs on
success, `none` on any thrown error (unparseable data URL, rejected remote
call, response without an image part, compositing failure). -/
def tweakResult (env : TweakEnv) (v : Variant) : Option (String × String) :=
  match parseDataUrl v.sourceGraphicUrl with
  | none => none
  | some _mimeAndData =>
      match env.generatorResult with
      | .error _ => none
      | .ok resp =>
          match resp.parts.bind findImageData with
          | none => none
          | some idata =>
              match env.composite (dataUrlOf idata) with
              | .error _ => none
              | .ok disp => some (dataUrlOf idata, disp)

/-- Embeds `handleApplyTweak` (lines 308–385 of `index.tsx`): set the tweaking
flag, clear the error, look up the variant by id (a distinct message when
absent), run the tweak body; on success map the variant list replacing the
images of the matching variant and setting `truthLockStatus` to `modified`;
on any thrown error set the fixed failure message; clear the tweaking flag
in `finally`. -/
def handleApplyTweak (env : TweakEnv) (variantId : String) (s : Session) : Session :=
  let s1 : Session := { s with isTweaking := true, error := none }
  match s1.variants.find? (fun v => v.id == variantId) with
  | none =>
      { s1 with error := some msgVariantNotFound, isTweaking := false }
  | some variantToTweak =>
      match tweakResult env variantToTweak with
      | some (newSrc, newDisp) =>
          { s1 with
              variants := s1.variants.map (fun v =>
                if v.id == variantId then
                  { v with
                      sourceGraphicUrl := newSrc
                      displayImageUrl := newDisp
                      truthLockStatus := .modified }
                else v)
              isTweaking := false }
      | none =>
          { s1 with error := some msgTweakFailed, isTweaking := false }

/-! ## The remaining operations of `App` -/

/-- Embeds `handleImageUpload` (lines 126–133 of `index.tsx`): clear the error,
the variant list and the compare flag; store the first selected file when
one is present. -/
def handleImageUpload (files : List UploadedFile) (s : Session) : Session :=
  let s1 : Session := { s with error := none, variants := [], compareOn := false }
  match files with
  | f :: _ => { s1 with originalImage := some f }
  | [] => s1

/-- Embeds `handleStylePresetChange` (lines 135–137 of `index.tsx`). -/
def handleStylePresetChange (preset : StylePreset) (s : Session) : Session :=
  { s with stylePreset := preset }

/-- Embeds `onCompareToggle` (line 139 of `index.tsx`). -/
def onCompareToggle (s : Session) : Session :=
  { s with compareOn := !s.compareOn }

/-- Embeds `setTweakRequest` as wired to the command bar (line 422 of `index.tsx`). -/
def setTweakRequestOp (t : String) (s : Session) : Session :=
  { s with tweakRequest := t }

/-- The environment of one `onExportPng` run. -/
structure ExportEnv where
  /-- Embeds `processFinalImage` as experienced by the fallback path. -/
  composite : String → Except String String
  /-- Whether the client-side download mechanics succeed. -/
  downloadOk : Bool

/-- Embeds `onExportPng` (lines 141–175 of `index.tsx`): look up the variant
(error message when absent), use its display URL when truthy, else
recompute from the raw graphic (error on failure), then trigger the
download (error on failure).  The variant list is never changed. -/
def onExportPng (env : ExportEnv) (variantId : String) (s : Session) : Session :=
  match s.variants.find? (fun v => v.id == variantId) with
  | none =>
      { s with error := some "Could not find the specified variant to export." }
  | some v =>
      let exportUrl : Except String String :=
        if v.displayImageUrl != "" then .ok v.displayImageUrl
        else
          match env.composite v.sourceGraphicUrl with
          | .ok u => .ok u
          | .error _ =>
              .error "Could not process the image for export. Please try again."
      match exportUrl with
      | .error m => { s with error := some m }
      | .ok _ =>
          if env.downloadOk then s
          else { s with error := some "Could not export the image. Please try again." }

/-- Embeds `handleImproveSlide` (lines 387–393 of `index.tsx`): with a variant
present and a nonblank tweak request, tweak the first variant; otherwise
generate. -/
def handleImproveSlide (genv : GenEnv) (tenv : TweakEnv) (s : Session) : Session :=
  match s.variants with
  | v :: _ =>
      if s.tweakRequest.trim != "" then handleApplyTweak tenv v.id s
      else handleGenerateVariants genv s
  | [] => handleGenerateVariants genv s

/-! ## Reachable session states -/

/-- One user-triggered operation of the application. -/
inductive Step : Session → Session → Prop where
  | upload (files : List UploadedFile) (s : Session) :
      Step s (handleImageUpload files s)
  | generate (env : GenEnv) (s : Session) :
      Step s (handleGenerateVariants env s)
  | tweak (env : TweakEnv) (variantId : String) (s : Session) :
      Step s (handleApplyTweak env variantId s)
  | style (preset : StylePreset) (s : Session) :
      Step s (handleStylePresetChange preset s)
  | compare (s : Session) :
      Step s (onCompareToggle s)
  | tweakText (t : String) (s : Session) :
      Step s (setTweakRequestOp t s)
  | exportPng (env : ExportEnv) (variantId : String) (s : Session) :
      Step s (onExportPng env variantId s)
  | improve (genv : GenEnv) (tenv : TweakEnv) (s : Session) :
      Step s (handleImproveSlide genv tenv s)

/-- The session states reachable from the initial component state by
user-triggered operations. -/
inductive Reachable : Session → Prop where
  | init : Reachable initialSession
  | step {s s' : Session} : Reachable s → Step s s' → Reachable s'

/-! ## Auxiliary predicates and concrete scenarios -/

/-- Whether the extraction step (fixture lookup or live OCR) of a run
succeeds, i.e. does not throw before the Visual Generator is consulted. -/
def extractSucceeds (env : GenEnv) (name : String) : Bool :=
  match (extractStep env name).2 with
  | .ok _ => true
  | .error _ => false

/-- The session invariant maintained by every operation: a session with no
uploaded source image holds no variant, the variant store holds at most one
variant, and no stored variant is in the `verifying` state. -/
def SessionInv (s : Session) : Prop :=
  (s.originalImage = none → s.variants = []) ∧
  s.variants.length ≤ 1 ∧
  ∀ v ∈ s.variants, v.truthLockStatus ≠ TruthLockStatus.verifying

/-- A demo-fixture upload (its name is a key of `DEMO_DATA`). -/
def demoFile : UploadedFile := { name := "roadmap.png", bytes := "" }

/-- A generator response part carrying only a title text. -/
def titlePart : Part := { text := some "Proposed Title", inlineData := none }

/-- A generator response part carrying only binary image data. -/
def imageInline : InlineData := { mimeType := "image/png", data := "AAAA" }

/-- A generator response part carrying only `inlineData`. -/
def imagePart : Part := { text := none, inlineData := some imageInline }

/-- A well-shaped generator response: a title part and an image part. -/
def goodResponse : GenResponse := { parts := some [titlePart, imagePart] }

/-- A generation environment in which every collaborator behaves. -/
def goodEnv : GenEnv :=
  { ocrResult := .null
    generatorResult := .ok goodResponse
    timeoutWins := false
    composite := fun _ => .ok "display"
    newId := "variant-1" }

/-- Embeds `goodEnv`, but the timeout promise settles first. -/
def timeoutEnv : GenEnv := { goodEnv with timeoutWins := true }

/-- Embeds `goodEnv`, but the generator response has an empty parts list
(both required parts absent). -/
def emptyPartsEnv : GenEnv :=
  { goodEnv with generatorResult := .ok { parts := some [] } }

/-- Embeds `goodEnv`, but the generator response holds only a title part
(exactly the image part absent). -/
def titleOnlyEnv : GenEnv :=
  { goodEnv with generatorResult := .ok { parts := some [titlePart] } }

/-- The state after uploading the demo fixture file into a fresh session. -/
def uploadedSession : Session := handleImageUpload [demoFile] initialSession

/-- The state after a fully successful generation run on `uploadedSession`. -/
def readySession : Session := handleGenerateVariants goodEnv uploadedSession

/-- The variant `readySession` holds. -/
def goodVariant : Variant :=
  { id := "variant-1"
    sourceGraphicUrl := dataUrlOf imageInline
    displayImageUrl := "display"
    truthLockStatus := .verified }

/-- A tweak environment whose generator returns a fresh image. -/
def tweakGoodEnv : TweakEnv :=
  { generatorResult := .ok { parts := some [{ text := none, inlineData := some { mimeType := "image/png", data := "BBBB" } }] }
    composite := fun _ => .ok "display2" }

/-- A tweak environment whose generator responds without any image part. -/
def tweakNoImageEnv : TweakEnv :=
  { generatorResult := .ok { parts := some [titlePart] }
    composite := fun _ => .ok "display3" }

/-! ## Helper lemmas -/

/-- A successful generation attempt yields a variant marked `verified` whose
display image is the output of the compositor on its raw graphic. -/
theorem generationAttempt_ok {env : GenEnv} {name : String} {v : Variant}
    (h : generationAttempt env name = .ok v) :
    v.truthLockStatus = TruthLockStatus.verified ∧
      env.composite v.sourceGraphicUrl = .ok v.displayImageUrl := by
  unfold generationAttempt at h
  split at h
  · exact absurd h (by simp)
  · split at h
    · exact absurd h (by simp)
    · split at h
      · exact absurd h (by simp)
      · split at h
        · exact absurd h (by simp)
        · rename_i idata _hshape disp hc
          simp only [Except.ok.injEq] at h
          subst h
          exact ⟨rfl, hc⟩

/-- Case analysis on one generation run: early return on a missing upload,
a published complete variant, or a failure with empty variants. -/
theorem handleGenerateVariants_shape (env : GenEnv) (s : Session) :
    (s.originalImage = none ∧
       handleGenerateVariants env s = { s with error := some msgNoImageUpload }) ∨
    (∃ img v, s.originalImage = some img ∧
       (handleGenerateVariants env s).variants = [v] ∧
       v.truthLockStatus = TruthLockStatus.verified ∧
       env.composite v.sourceGraphicUrl = .ok v.displayImageUrl ∧
       (handleGenerateVariants env s).error = none) ∨
    ((handleGenerateVariants env s).variants = [] ∧
       ∃ m, (handleGenerateVariants env s).error = some m) := by
  cases him : s.originalImage with
  | none =>
      left
      refine ⟨rfl, ?_⟩
      simp [handleGenerateVariants, handleGenerateVariantsT, him]
  | some img =>
      right
      cases hg : generationAttempt env img.name with
      | ok v =>
          left
          obtain ⟨h1, h2⟩ := generationAttempt_ok hg
          exact ⟨img, v, rfl,
            by simp [handleGenerateVariants, handleGenerateVariantsT, him, hg],
            h1, h2,
            by simp [handleGenerateVariants, handleGenerateVariantsT, him, hg]⟩
      | error m =>
          right
          refine ⟨by simp [handleGenerateVariants, handleGenerateVariantsT, him, hg], ?_⟩
          exact ⟨if m == "" then msgGenericGenerate else m,
            by simp [handleGenerateVariants, handleGenerateVariantsT, him, hg]⟩

/-- A generation run never changes the uploaded source image. -/
theorem handleGenerateVariants_originalImage (env : GenEnv) (s : Session) :
    (handleGenerateVariants env s).originalImage = s.originalImage := by
  cases him : s.originalImage with
  | none => simp [handleGenerateVariants, handleGenerateVariantsT, him]
  | some img =>
      cases hg : generationAttempt env img.name <;>
        simp [handleGenerateVariants, handleGenerateVariantsT, him, hg]

/-- The tweak flow always clears the tweaking flag when it ends. -/
theorem handleApplyTweak_isTweaking (env : TweakEnv) (vid : String) (s : Session) :
    (handleApplyTweak env vid s).isTweaking = false := by
  unfold handleApplyTweak
  cases hf : s.variants.find? (fun v => v.id == vid) with
  | none => simp [hf]
  | some v =>
      cases hr : tweakResult env v with
      | none => simp [hf, hr]
      | some pr =>
          obtain ⟨newSrc, newDisp⟩ := pr
          simp [hf, hr]

/-- A tweak run leaves the variant list untouched or maps it, replacing the
images of the matching variant and setting its status to `modified`. -/
theorem handleApplyTweak_variants (env : TweakEnv) (vid : String) (s : Session) :
    (handleApplyTweak env vid s).variants = s.variants ∨
    ∃ pr : String × String,
      (handleApplyTweak env vid s).variants =
        s.variants.map (fun v =>
          if v.id == vid then
            { v with
                sourceGraphicUrl := pr.1
                displayImageUrl := pr.2
                truthLockStatus := TruthLockStatus.modified }
          else v) := by
  unfold handleApplyTweak
  cases hf : s.variants.find? (fun v => v.id == vid) with
  | none => left; simp [hf]
  | some v =>
      cases hr : tweakResult env v with
      | none => left; simp [hf, hr]
      | some pr =>
          obtain ⟨newSrc, newDisp⟩ := pr
          right
          exact ⟨(newSrc, newDisp), by simp [hf, hr]⟩

/-- A tweak run never changes the uploaded source image. -/
theorem handleApplyTweak_originalImage (env : TweakEnv) (vid : String) (s : Session) :
    (handleApplyTweak env vid s).originalImage = s.originalImage := by
  unfold handleApplyTweak
  cases hf : s.variants.find? (fun v => v.id == vid) with
  | none => simp [hf]
  | some v =>
      cases hr : tweakResult env v with
      | none => simp [hf, hr]
      | some pr =>
          obtain ⟨newSrc, newDisp⟩ := pr
          simp [hf, hr]

/-- An export run never changes the variant list or the uploaded image. -/
theorem onExportPng_preserves (env : ExportEnv) (vid : String) (s : Session) :
    (onExportPng env vid s).variants = s.variants ∧
    (onExportPng env vid s).originalImage = s.originalImage := by
  unfold onExportPng
  split
  · simp
  · split
    · split <;> simp
    · split
      · split <;> simp
      · simp

/-- When the text part or the image part is absent, the shape check throws:
one message when the parts chain is missing or shorter than two parts, the
other when both `find` calls run and one fails. -/
theorem shapeCheck_missing {resp : GenResponse}
    (hmiss : findTextPart (respParts resp) = none ∨
             findImageData (respParts resp) = none) :
    shapeCheck resp =
      .error (if shortParts resp then msgNotBothParts else msgMissingEither) := by
  cases hp : resp.parts with
  | none => simp [shapeCheck, shortParts, hp]
  | some parts =>
      have hre : respParts resp = parts := by simp [respParts, hp]
      rw [hre] at hmiss
      by_cases hlen : parts.length < 2
      · simp [shapeCheck, shortParts, hp, hlen]
      · simp only [shapeCheck, shortParts, hp, hlen, if_neg, if_false]
        rcases hmiss with hm | hm
        · rw [hm]
          cases findImageData parts <;> simp [hlen]
        · rw [hm]
          cases findTextPart parts <;> simp [hlen]

/-- The initial component state satisfies the session invariant. -/
theorem sessionInv_initial : SessionInv initialSession := by
  refine ⟨fun _ => rfl, ?_, ?_⟩ <;> simp [initialSession]

/-- Uploading preserves the session invariant (the variant list is cleared). -/
theorem sessionInv_upload (files : List UploadedFile) (s : Session) :
    SessionInv (handleImageUpload files s) := by
  cases files with
  | nil =>
      exact ⟨fun _ => by simp [handleImageUpload],
        by simp [handleImageUpload], by simp [handleImageUpload]⟩
  | cons f fs =>
      exact ⟨fun _ => by simp [handleImageUpload],
        by simp [handleImageUpload], by simp [handleImageUpload]⟩

/-- A generation run preserves the session invariant. -/
theorem sessionInv_generate (env : GenEnv) (s : Session) (h : SessionInv s) :
    SessionInv (handleGenerateVariants env s) := by
  rcases handleGenerateVariants_shape env s with
    ⟨hnone, heq⟩ | ⟨img, v, him, hv, hst, _, _⟩ | ⟨hv, _⟩
  · rw [heq]
    refine ⟨fun _ => ?_, ?_, ?_⟩
    · simpa using h.1 hnone
    · simpa using h.2.1
    · simpa using h.2.2
  · refine ⟨?_, ?_, ?_⟩
    · intro hno
      rw [handleGenerateVariants_originalImage, him] at hno
      cases hno
    · rw [hv]; simp
    · rw [hv]
      intro w hw
      rw [List.mem_singleton] at hw
      subst hw
      rw [hst]
      simp
  · refine ⟨fun _ => hv, ?_, ?_⟩
    · rw [hv]; simp
    · rw [hv]; simp

/-- A tweak run preserves the session invariant. -/
theorem sessionInv_tweak (env : TweakEnv) (vid : String) (s : Session)
    (h : SessionInv s) : SessionInv (handleApplyTweak env vid s) := by
  rcases handleApplyTweak_variants env vid s with hv | ⟨pr, hv⟩
  · refine ⟨?_, by rw [hv]; exact h.2.1, by rw [hv]; exact h.2.2⟩
    intro hno
    rw [handleApplyTweak_originalImage] at hno
    rw [hv]
    exact h.1 hno
  · refine ⟨?_, ?_, ?_⟩
    · intro hno
      rw [handleApplyTweak_originalImage] at hno
      rw [hv, h.1 hno]
      rfl
    · rw [hv, List.length_map]
      exact h.2.1
    · rw [hv]
      intro w hw
      rw [List.mem_map] at hw
      obtain ⟨v0, hv0, hweq⟩ := hw
      subst hweq
      by_cases hid : (v0.id == vid) = true
      · simp [hid]
      · rw [if_neg (by simp [hid])]
        exact h.2.2 v0 hv0

/-- An export run preserves the session invariant. -/
theorem sessionInv_export (env : ExportEnv) (vid : String) (s : Session)
    (h : SessionInv s) : SessionInv (onExportPng env vid s) := by
  obtain ⟨hv, hi⟩ := onExportPng_preserves env vid s
  refine ⟨fun hno => ?_, ?_, ?_⟩
  · rw [hi] at hno; rw [hv]; exact h.1 hno
  · rw [hv]; exact h.2.1
  · rw [hv]; exact h.2.2

/-- Every user-triggered operation preserves the session invariant. -/
theorem sessionInv_step {s s' : Session} (h : SessionInv s) (hs : Step s s') :
    SessionInv s' := by
  cases hs with
  | upload files s => exact sessionInv_upload files s
  | generate env s => exact sessionInv_generate env s h
  | tweak env vid s => exact sessionInv_tweak env vid s h
  | style preset s => exact ⟨fun hno => h.1 hno, h.2.1, h.2.2⟩
  | compare s => exact ⟨fun hno => h.1 hno, h.2.1, h.2.2⟩
  | tweakText t s => exact ⟨fun hno => h.1 hno, h.2.1, h.2.2⟩
  | exportPng env vid s => exact sessionInv_export env vid s h
  | improve genv tenv s =>
      unfold handleImproveSlide
      cases hv : s.variants with
      | nil => exact sessionInv_generate genv s h
      | cons v vs =>
          dsimp only
          by_cases ht : (s.tweakRequest.trim != "") = true
          · rw [if_pos ht]
            exact sessionInv_tweak tenv v.id s h
          · rw [if_neg ht]
            exact sessionInv_generate genv s h

/-- Every reachable session state satisfies the session invariant. -/
theorem sessionInv_reachable {s : Session} (hs : Reachable s) : SessionInv s := by
  induction hs with
  | init => exact sessionInv_initial
  | step _ hstep ih => exact sessionInv_step ih hstep

/-! ## Claim theorems -/

/-- C4: for every target width, the output canvas of the Compositor has exactly
the requested width, and its height is `width * 9 / 16` rounded with the
fixed rule "truncate toward zero" (the floor, for these nonnegative values):
`16 * height ≤ 9 * width < 16 * height + 16`, with equality
`16 * height = 9 * width` exactly at the widths where `width * 9 / 16` is an
integer. -/
theorem compositor_dims (w : ℕ) :
    (processCanvasDims w).1 = w ∧
    16 * (processCanvasDims w).2 ≤ 9 * w ∧
    9 * w < 16 * (processCanvasDims w).2 + 16 ∧
    (16 ∣ 9 * w → 16 * (processCanvasDims w).2 = 9 * w) := by
  have hh : (processCanvasDims w).2 = 9 * w / 16 := by
    show canvasHeight w = 9 * w / 16
    unfold canvasHeight targetHeightRat
    have h : ((w : ℚ) / 16) * 9 = ((9 * w : ℕ) : ℚ) / ((16 : ℕ) : ℚ) := by
      push_cast
      ring
    rw [h, Nat.floor_div_nat (α := ℚ), Nat.floor_natCast]
  have hdm := Nat.div_add_mod (9 * w) 16
  have hlt : 9 * w % 16 < 16 := Nat.mod_lt _ (by norm_num)
  refine ⟨rfl, ?_, ?_, ?_⟩
  · rw [hh]; omega
  · rw [hh]; omega
  · intro hdvd
    rw [hh]
    obtain ⟨k, hk⟩ := hdvd
    omega

/-- Witness for C4 at the default width 1920, where the height is exact. -/
theorem compositor_dims_witness :
    (processCanvasDims 1920).1 = 1920 ∧
    16 * (processCanvasDims 1920).2 ≤ 9 * 1920 ∧
    9 * 1920 < 16 * (processCanvasDims 1920).2 + 16 ∧
    16 * (processCanvasDims 1920).2 = 9 * 1920 :=
  ⟨(compositor_dims 1920).1, (compositor_dims 1920).2.1,
   (compositor_dims 1920).2.2.1,
   (compositor_dims 1920).2.2.2 (by norm_num)⟩

/-- C5: for every decodable source image (positive dimensions) and canvas,
the Compositor scales the source uniformly by the minimum of
`canvasWidth / imageWidth` and `canvasHeight / imageHeight`, the scaled
image fits entirely inside the canvas, and it is centered on both axes:
the left and right padding are exactly equal, and likewise the top and
bottom padding (hence equal within one pixel). -/
theorem compositor_fit_center (cw ch iw ih : ℕ) (hw : 0 < iw) (hh : 0 < ih) :
    (composeGeometry cw ch iw ih).ratio =
      min ((cw : ℚ) / (iw : ℚ)) ((ch : ℚ) / (ih : ℚ)) ∧
    (composeGeometry cw ch iw ih).drawW ≤ (cw : ℚ) ∧
    (composeGeometry cw ch iw ih).drawH ≤ (ch : ℚ) ∧
    (composeGeometry cw ch iw ih).shiftX =
      (cw : ℚ) - ((composeGeometry cw ch iw ih).shiftX +
        (composeGeometry cw ch iw ih).drawW) ∧
    (composeGeometry cw ch iw ih).shiftY =
      (ch : ℚ) - ((composeGeometry cw ch iw ih).shiftY +
        (composeGeometry cw ch iw ih).drawH) := by
  have hiw : (0 : ℚ) < (iw : ℚ) := by exact_mod_cast hw
  have hih : (0 : ℚ) < (ih : ℚ) := by exact_mod_cast hh
  refine ⟨rfl, ?_, ?_, ?_, ?_⟩
  · show (iw : ℚ) * min ((cw : ℚ) / (iw : ℚ)) ((ch : ℚ) / (ih : ℚ)) ≤ (cw : ℚ)
    calc (iw : ℚ) * min ((cw : ℚ) / (iw : ℚ)) ((ch : ℚ) / (ih : ℚ))
        ≤ (iw : ℚ) * ((cw : ℚ) / (iw : ℚ)) :=
          mul_le_mul_of_nonneg_left (min_le_left _ _) (le_of_lt hiw)
      _ = (cw : ℚ) := by field_simp
  · show (ih : ℚ) * min ((cw : ℚ) / (iw : ℚ)) ((ch : ℚ) / (ih : ℚ)) ≤ (ch : ℚ)
    calc (ih : ℚ) * min ((cw : ℚ) / (iw : ℚ)) ((ch : ℚ) / (ih : ℚ))
        ≤ (ih : ℚ) * ((ch : ℚ) / (ih : ℚ)) :=
          mul_le_mul_of_nonneg_left (min_le_right _ _) (le_of_lt hih)
      _ = (ch : ℚ) := by field_simp
  · show ((cw : ℚ) - (iw : ℚ) * _) / 2 = (cw : ℚ) - (((cw : ℚ) - (iw : ℚ) * _) / 2 + (iw : ℚ) * _)
    ring
  · show ((ch : ℚ) - (ih : ℚ) * _) / 2 = (ch : ℚ) - (((ch : ℚ) - (ih : ℚ) * _) / 2 + (ih : ℚ) * _)
    ring

/-- Witness for C5 at a 1920×1080 canvas and an 800×600 source. -/
theorem compositor_fit_center_witness :
    (composeGeometry 1920 1080 800 600).ratio =
      min (((1920 : ℕ) : ℚ) / ((800 : ℕ) : ℚ)) (((1080 : ℕ) : ℚ) / ((600 : ℕ) : ℚ)) ∧
    (composeGeometry 1920 1080 800 600).drawW ≤ ((1920 : ℕ) : ℚ) ∧
    (composeGeometry 1920 1080 800 600).drawH ≤ ((1080 : ℕ) : ℚ) ∧
    (composeGeometry 1920 1080 800 600).shiftX =
      ((1920 : ℕ) : ℚ) - ((composeGeometry 1920 1080 800 600).shiftX +
        (composeGeometry 1920 1080 800 600).drawW) ∧
    (composeGeometry 1920 1080 800 600).shiftY =
      ((1080 : ℕ) : ℚ) - ((composeGeometry 1920 1080 800 600).shiftY +
        (composeGeometry 1920 1080 800 600).drawH) :=
  compositor_fit_center 1920 1080 800 600 (by norm_num) (by norm_num)

/-- C1, counterexample: the claim that the error message for a response
missing both parts is distinct from the one for a response missing exactly
one part is false.  A response with an empty parts list (both parts absent)
and a response holding only a title part (exactly the image part absent)
produce the same error message, because the first guard keys on the parts
count, not on which parts are missing. -/
theorem generation_part_messages_counterexample :
    findTextPart (respParts { parts := some ([] : List Part) }) = none ∧
    findImageData (respParts { parts := some ([] : List Part) }) = none ∧
    findTextPart (respParts { parts := some [titlePart] }) = some "Proposed Title" ∧
    findImageData (respParts { parts := some [titlePart] }) = none ∧
    (handleGenerateVariants emptyPartsEnv uploadedSession).error =
      (handleGenerateVariants titleOnlyEnv uploadedSession).error ∧
    (handleGenerateVariants emptyPartsEnv uploadedSession).error =
      some msgNotBothParts :=
  ⟨rfl, rfl, rfl, rfl, rfl, rfl⟩

/-- C1 (amended): after the Visual Generator responds, the orchestrator
requires both a textual title part and a binary image part; if either is
absent the flow transitions to Error and publishes no variant.  The two
distinct error messages are keyed on the parts count, not on how many of
the required parts are missing: one message when the parts chain is absent
or shorter than two parts, the other when at least two parts are present
but the text part or the image part is not found. -/
theorem generation_missing_parts (env : GenEnv) (s : Session)
    (f : UploadedFile) (resp : GenResponse)
    (himg : s.originalImage = some f)
    (hex : extractSucceeds env f.name = true)
    (ht : env.timeoutWins = false)
    (hresp : env.generatorResult = .ok resp)
    (hmiss : findTextPart (respParts resp) = none ∨
             findImageData (respParts resp) = none) :
    (handleGenerateVariants env s).variants = [] ∧
    (handleGenerateVariants env s).error =
      some (if shortParts resp then msgNotBothParts else msgMissingEither) ∧
    msgNotBothParts ≠ msgMissingEither := by
  obtain ⟨j, hj⟩ : ∃ j, (extractStep env f.name).2 = .ok j := by
    unfold extractSucceeds at hex
    cases hx : (extractStep env f.name).2 with
    | ok j => exact ⟨j, rfl⟩
    | error m => rw [hx] at hex; cases hex
  have hrace : raceResult env = .ok resp := by
    simp [raceResult, ht, hresp]
  have hshape := shapeCheck_missing hmiss
  have hatt : generationAttempt env f.name =
      .error (if shortParts resp then msgNotBothParts else msgMissingEither) := by
    unfold generationAttempt
    rw [hj, hrace]
    dsimp only
    rw [hshape]
  have hne : ((if shortParts resp then msgNotBothParts else msgMissingEither) == "")
      = false := by
    cases hsp : shortParts resp <;> simp [msgNotBothParts, msgMissingEither]
  refine ⟨?_, ?_, by decide⟩ <;>
    simp [handleGenerateVariants, handleGenerateVariantsT, himg, hatt, hne]

/-- Witness for C1 (amended): a response holding only a title part. -/
theorem generation_missing_parts_witness :
    (handleGenerateVariants titleOnlyEnv uploadedSession).variants = [] ∧
    (handleGenerateVariants titleOnlyEnv uploadedSession).error =
      some msgNotBothParts ∧
    msgNotBothParts ≠ msgMissingEither :=
  generation_missing_parts titleOnlyEnv uploadedSession demoFile
    { parts := some [titlePart] } rfl rfl rfl rfl (Or.inr rfl)

/-- C2: the Visual Generator call is raced against the fixed 60-second
timeout; in every run in which the timeout settles first the flow
terminates in Error with the timeout-specific message and no variant, and
the final session state does not depend on what the generator eventually
returns (the late settlement is discarded). -/
theorem generation_timeout_discards (env : GenEnv) (s : Session)
    (f : UploadedFile) (late : Except String GenResponse)
    (himg : s.originalImage = some f)
    (hex : extractSucceeds env f.name = true)
    (ht : env.timeoutWins = true) :
    GENERATION_TIMEOUT_MS = 60000 ∧
    (handleGenerateVariants env s).error = some msgTimeout ∧
    (handleGenerateVariants env s).variants = [] ∧
    handleGenerateVariants { env with generatorResult := late } s =
      handleGenerateVariants env s := by
  obtain ⟨j, hj⟩ : ∃ j, (extractStep env f.name).2 = .ok j := by
    unfold extractSucceeds at hex
    cases hx : (extractStep env f.name).2 with
    | ok j => exact ⟨j, rfl⟩
    | error m => rw [hx] at hex; cases hex
  have hj' : (extractStep { env with generatorResult := late } f.name).2 = .ok j := hj
  have hatt : generationAttempt env f.name = .error msgTimeout := by
    unfold generationAttempt
    rw [hj]
    simp [raceResult, ht]
  have hatt' : generationAttempt { env with generatorResult := late } f.name
      = .error msgTimeout := by
    unfold generationAttempt
    rw [hj']
    simp [raceResult, ht]
  have hne : (msgTimeout == "") = false := by decide
  refine ⟨rfl, ?_, ?_, ?_⟩ <;>
    simp [handleGenerateVariants, handleGenerateVariantsT, himg, hatt, hatt', hne]

/-- Witness for C2: a timed-out run over the demo fixture upload; replacing
the eventual settlement of the generator changes nothing. -/
theorem generation_timeout_discards_witness :
    GENERATION_TIMEOUT_MS = 60000 ∧
    (handleGenerateVariants timeoutEnv uploadedSession).error = some msgTimeout ∧
    (handleGenerateVariants timeoutEnv uploadedSession).variants = [] ∧
    handleGenerateVariants { timeoutEnv with generatorResult := .error "late" }
        uploadedSession =
      handleGenerateVariants timeoutEnv uploadedSession :=
  generation_timeout_discards timeoutEnv uploadedSession demoFile
    (.error "late") rfl rfl rfl

/-- C3: when the name of the uploaded file is a key of the demo fixture mapping,
the generation flow performs no Content Extractor (OCR) call and the
structured description submitted to the Visual Generator is exactly the
content of the fixture; for every other file name the Content Extractor is
called. -/
theorem demo_fixture_shortcut (env : GenEnv) (s : Session) (f : UploadedFile)
    (himg : s.originalImage = some f) :
    (∀ j, lookupDemo f.name = some j →
       (handleGenerateVariantsT env s).2.ocrCalled = false ∧
       (handleGenerateVariantsT env s).2.submittedJson = some j) ∧
    (lookupDemo f.name = none →
       (handleGenerateVariantsT env s).2.ocrCalled = true) := by
  have htr : (handleGenerateVariantsT env s).2 =
      { ocrCalled := (extractStep env f.name).1
        submittedJson :=
          match (extractStep env f.name).2 with
          | .ok j => some j
          | .error _ => none } := by
    cases hg : generationAttempt env f.name <;>
      simp [handleGenerateVariantsT, himg, hg]
  constructor
  · intro j hj
    rw [htr]
    constructor <;> simp [extractStep, hj]
  · intro hj
    rw [htr]
    simp [extractStep, hj]

/-- Witness for C3: the `roadmap.png` fixture skips OCR and submits the
fixture content verbatim. -/
theorem demo_fixture_shortcut_witness :
    (handleGenerateVariantsT goodEnv uploadedSession).2.ocrCalled = false ∧
    (handleGenerateVariantsT goodEnv uploadedSession).2.submittedJson =
      some roadmapContent :=
  (demo_fixture_shortcut goodEnv uploadedSession demoFile rfl).1
    roadmapContent rfl

/-- C6: from every reachable session state, a generation run either
publishes exactly one complete variant — status `verified`, display image
the output of the compositor on the raw graphic, no error — or publishes no
variant at all: on every failure the variant slot is left empty and an
error message is set. -/
theorem generation_atomic (env : GenEnv) (s : Session) (hs : Reachable s) :
    (∃ v, (handleGenerateVariants env s).variants = [v] ∧
       v.truthLockStatus = TruthLockStatus.verified ∧
       env.composite v.sourceGraphicUrl = .ok v.displayImageUrl ∧
       (handleGenerateVariants env s).error = none) ∨
    ((handleGenerateVariants env s).variants = [] ∧
       ∃ m, (handleGenerateVariants env s).error = some m) := by
  rcases handleGenerateVariants_shape env s with
    ⟨hnone, heq⟩ | ⟨img, v, _, h1, h2, h3, h4⟩ | ⟨h1, h2⟩
  · right
    rw [heq]
    refine ⟨?_, msgNoImageUpload, rfl⟩
    simpa using (sessionInv_reachable hs).1 hnone
  · left
    exact ⟨v, h1, h2, h3, h4⟩
  · right
    exact ⟨h1, h2⟩

/-- Witness for C6: the failure side at the initial state (no upload), where
the slot stays empty and an error is surfaced. -/
theorem generation_atomic_witness :
    (handleGenerateVariants goodEnv initialSession).variants = [] ∧
    (handleGenerateVariants goodEnv initialSession).error = some msgNoImageUpload := by
  rcases generation_atomic goodEnv initialSession Reachable.init with
    ⟨v, hv, _, _, _⟩ | ⟨h1, _⟩
  · exact absurd (hv.symm.trans rfl) (List.cons_ne_nil v [])
  · exact ⟨h1, rfl⟩

/-- C7: a successful edit maps the variant list, replacing the matching
images of the matching variant and setting its status to `modified` — whatever its prior
status was, so a second successful edit keeps `modified` and no edit ever
restores `verified`. -/
theorem tweak_modified_absorbing (env : TweakEnv) (vid : String) (s : Session)
    (v : Variant) (pr : String × String)
    (hfind : s.variants.find? (fun w => w.id == vid) = some v)
    (hres : tweakResult env v = some pr) :
    (handleApplyTweak env vid s).variants =
      s.variants.map (fun w =>
        if w.id == vid then
          { w with
              sourceGraphicUrl := pr.1
              displayImageUrl := pr.2
              truthLockStatus := TruthLockStatus.modified }
        else w) ∧
    ∀ w ∈ (handleApplyTweak env vid s).variants,
      w.id = vid → w.truthLockStatus = TruthLockStatus.modified := by
  obtain ⟨newSrc, newDisp⟩ := pr
  have hv : (handleApplyTweak env vid s).variants =
      s.variants.map (fun w =>
        if w.id == vid then
          { w with
              sourceGraphicUrl := newSrc
              displayImageUrl := newDisp
              truthLockStatus := TruthLockStatus.modified }
        else w) := by
    simp [handleApplyTweak, hfind, hres]
  refine ⟨hv, ?_⟩
  rw [hv]
  intro w hw hid
  rw [List.mem_map] at hw
  obtain ⟨w0, _, hweq⟩ := hw
  subst hweq
  by_cases h0 : (w0.id == vid) = true
  · simp [h0]
  · rw [if_neg (by simp [h0])] at hid ⊢
    exact absurd hid (by simpa using h0)

/-- Witness for C7: a successful tweak of the freshly generated variant
turns its status from `verified` to `modified`. -/
theorem tweak_modified_absorbing_witness :
    goodVariant.truthLockStatus = TruthLockStatus.verified ∧
    (handleApplyTweak tweakGoodEnv "variant-1" readySession).variants =
      [{ goodVariant with
           sourceGraphicUrl := "data:image/png;base64,BBBB"
           displayImageUrl := "display2"
           truthLockStatus := TruthLockStatus.modified }] := by
  have h := tweak_modified_absorbing tweakGoodEnv "variant-1" readySession
    goodVariant ("data:image/png;base64,BBBB", "display2") rfl rfl
  rw [h.1]
  exact ⟨rfl, rfl⟩

/-- C8: a tweak run that finds its variant but fails — the generator
response has no image part, or any other thrown error — surfaces the fixed
failure message and leaves the variant list (raw image, display image and
status of every variant) untouched; and the tweaking flag is cleared when
the flow ends, in every case. -/
theorem tweak_failure_untouched (env : TweakEnv) (vid : String) (s : Session) :
    (handleApplyTweak env vid s).isTweaking = false ∧
    ∀ v, s.variants.find? (fun w => w.id == vid) = some v →
      tweakResult env v = none →
        (handleApplyTweak env vid s).variants = s.variants ∧
        (handleApplyTweak env vid s).error = some msgTweakFailed := by
  refine ⟨handleApplyTweak_isTweaking env vid s, ?_⟩
  intro v hfind hres
  constructor <;> simp [handleApplyTweak, hfind, hres]

/-- Witness for C8: a tweak whose generator response lacks an image part
leaves the prior variant untouched and clears the flag. -/
theorem tweak_failure_untouched_witness :
    (handleApplyTweak tweakNoImageEnv "variant-1" readySession).isTweaking = false ∧
    (handleApplyTweak tweakNoImageEnv "variant-1" readySession).variants =
      readySession.variants ∧
    (handleApplyTweak tweakNoImageEnv "variant-1" readySession).error =
      some msgTweakFailed := by
  have h := tweak_failure_untouched tweakNoImageEnv "variant-1" readySession
  exact ⟨h.1, (h.2 goodVariant rfl rfl).1, (h.2 goodVariant rfl rfl).2⟩

/-- C9: the variant store holds at most one variant in every reachable
session state, and a generation run replaces the store wholesale: its
resulting variants are those it would produce from an emptied store, never
an append to the previous contents. -/
theorem single_variant_store :
    (∀ s, Reachable s → s.variants.length ≤ 1) ∧
    (∀ env s, Reachable s →
       (handleGenerateVariants env s).variants =
         (handleGenerateVariants env { s with variants := [] }).variants) := by
  constructor
  · intro s hs
    exact (sessionInv_reachable hs).2.1
  · intro env s hs
    cases him : s.originalImage with
    | none =>
        have h0 : s.variants = [] := (sessionInv_reachable hs).1 him
        simp [handleGenerateVariants, handleGenerateVariantsT, him, h0]
    | some img =>
        cases hg : generationAttempt env img.name <;>
          simp [handleGenerateVariants, handleGenerateVariantsT, him, hg]

/-- Witness for C9 at the post-generation state. -/
theorem single_variant_store_witness :
    readySession.variants.length ≤ 1 ∧
    (handleGenerateVariants goodEnv readySession).variants =
      (handleGenerateVariants goodEnv { readySession with variants := [] }).variants := by
  have hr : Reachable readySession :=
    Reachable.step (Reachable.step Reachable.init
      (Step.upload [demoFile] initialSession))
      (Step.generate goodEnv uploadedSession)
  exact ⟨single_variant_store.1 readySession hr,
    single_variant_store.2 goodEnv readySession hr⟩

/-- C10: although `TruthLockStatus` admits the value `verifying`, no
reachable session state stores a variant with that status: every published
variant is `verified` at creation or `modified` after an edit, so the
`verifying` branch is unreachable in the store. -/
theorem verifying_never_stored (s : Session) (hs : Reachable s) :
    ∀ v ∈ s.variants, v.truthLockStatus ≠ TruthLockStatus.verifying :=
  (sessionInv_reachable hs).2.2

/-- Witness for C10 at the post-generation state, whose store is nonempty. -/
theorem verifying_never_stored_witness :
    readySession.variants = [goodVariant] ∧
    goodVariant.truthLockStatus ≠ TruthLockStatus.verifying := by
  have hr : Reachable readySession :=
    Reachable.step (Reachable.step Reachable.init
      (Step.upload [demoFile] initialSession))
      (Step.generate goodEnv uploadedSession)
  refine ⟨rfl, verifying_never_stored readySession hr goodVariant ?_⟩
  rw [show readySession.variants = [goodVariant] from rfl]
  exact List.mem_singleton.mpr rfl

end SlideSurgeon
